import Mathlib

/-!
Shallow embedding of the Runpod AI SDK provider's asynchronous job client
and payload adapters (runpod-video-model.ts, runpod-image-model.ts,
runpod-speech-model.ts), together with theorems settling the frozen claims
about polling, payload construction, validation and result extraction.
-/

/-- JSON-like values, modelling the JavaScript values that flow through the
provider's payloads and job outputs. -/
inductive JVal where
  | null
  | bool (b : Bool)
  | num (n : Int)
  | str (s : String)
  | arr (elems : List JVal)
  | obj (fields : List (String × JVal))

/-- A JavaScript object modelled as an insertion-ordered association list. -/
abbrev Fields := List (String × JVal)

/-- JavaScript property assignment `o[k] = v`: updates the value in place if
the key exists, otherwise appends the key at the end. -/
def setKey : Fields → String → JVal → Fields
  | [], k, v => [(k, v)]
  | (k', v') :: rest, k, v =>
      if k' = k then (k, v) :: rest else (k', v') :: setKey rest k v

/-- JavaScript property read `o[k]` (`none` models `undefined`). -/
def getKey : Fields → String → Option JVal
  | [], _ => none
  | (k', v') :: rest, k => if k' = k then some v' else getKey rest k

/-- Whether a key is present in the object. -/
def hasKey (l : Fields) (k : String) : Bool := (getKey l k).isSome

/-- JavaScript object spread `\x7b...base, ...extra\x7d`: every key of
`extra` is assigned onto `base` in order. -/
def spread (base extra : Fields) : Fields :=
  extra.foldl (fun acc kv => setKey acc kv.1 kv.2) base

/-- Read a field and return it only when it is a string
(`typeof o[k] === 'string'`). -/
def getStrField (fields : Fields) (k : String) : Option String :=
  match getKey fields k with
  | some (.str s) => some s
  | _ => none

/-- JavaScript truthiness of an optional string (`undefined` and the empty
string are falsy). -/
def strTruthy : Option String → Bool
  | some s => !(s == "")
  | none => false

/-- JavaScript truthiness of a JSON value. -/
def jvTruthy : JVal → Bool
  | .null => false
  | .bool b => b
  | .num n => !(n == 0)
  | .str s => !(s == "")
  | .arr _ => true
  | .obj _ => true

/-- Replace the first occurrence of character `a` by `b`
(JavaScript `s.replace('a', 'b')` with single-character arguments). -/
def replaceCharFirst : List Char → Char → Char → List Char
  | [], _, _ => []
  | c :: rest, a, b =>
      if c = a then b :: rest else c :: replaceCharFirst rest a b

/-- String wrapper for `replaceCharFirst`. -/
def strReplaceCharFirst (s : String) (a b : Char) : String :=
  ⟨replaceCharFirst s.toList a b⟩

/-- Whether `pat` occurs at the start of `l`. -/
def listStartsWith : List Char → List Char → Bool
  | _, [] => true
  | [], _ :: _ => false
  | c :: rest, p :: ps => c == p && listStartsWith rest ps

/-- Whether `pat` occurs contiguously anywhere in `l`
(JavaScript `String.prototype.includes`). -/
def listContainsSeq : List Char → List Char → Bool
  | l, pat =>
    if listStartsWith l pat then true
    else match l with
      | [] => false
      | _ :: rest => listContainsSeq rest pat

/-- JavaScript `haystack.includes(needle)`. -/
def includesSubstr (haystack needle : String) : Bool :=
  listContainsSeq haystack.toList needle.toList

/-- Escape a character for a JSON string literal (quotation mark and
backslash; other characters are passed through). -/
def jsonEscapeChar (c : Char) : String :=
  if c = Char.ofNat 34 then String.mk [Char.ofNat 92, Char.ofNat 34]
  else if c = Char.ofNat 92 then String.mk [Char.ofNat 92, Char.ofNat 92]
  else String.mk [c]

/-- Escape a string for a JSON string literal. -/
def jsonEscape (s : String) : String :=
  String.join (s.toList.map jsonEscapeChar)

mutual

/-- JSON serialization of a value (`JSON.stringify`). -/
def jsonStringify : JVal → String
  | .null => "null"
  | .bool true => "true"
  | .bool false => "false"
  | .num n => toString n
  | .str s => "\"" ++ jsonEscape s ++ "\""
  | .arr xs => "[" ++ jsonStringifyList xs ++ "]"
  | .obj fs => "\x7b" ++ jsonStringifyFields fs ++ "\x7d"

/-- Comma-separated serialization of array elements. -/
def jsonStringifyList : List JVal → String
  | [] => ""
  | [x] => jsonStringify x
  | x :: y :: rest => jsonStringify x ++ "," ++ jsonStringifyList (y :: rest)

/-- Comma-separated serialization of object fields. -/
def jsonStringifyFields : List (String × JVal) → String
  | [] => ""
  | [kv] => "\"" ++ jsonEscape kv.1 ++ "\":" ++ jsonStringify kv.2
  | kv :: kv' :: rest =>
      "\"" ++ jsonEscape kv.1 ++ "\":" ++ jsonStringify kv.2 ++ "," ++
        jsonStringifyFields (kv' :: rest)

end

/-!
Video model (src/runpod-video-model.ts).
-/

/-- Reference media for the video model: a URL or an inline file whose data
is already a base64 string (the byte-array case of the source is the same
after base64 encoding). -/
inductive VideoFile where
  | url (u : String)
  | file (mediaType : String) (dataBase64 : String)

/-- RunpodVideoModel.convertFileToRunpodFormat. -/
def convertFileToRunpodFormat : VideoFile → String
  | .url u => u
  | .file mediaType dataBase64 =>
      "data:" ++ mediaType ++ ";base64," ++ dataBase64

/-- Call options of VideoModelV3CallOptions used by buildInputPayload. -/
structure VideoCallOptions where
  prompt : String
  duration : Option Int
  fps : Option Int
  seed : Option Int
  resolution : Option String
  aspectRatioOpt : Option String
  image : Option VideoFile

/-- RunpodVideoModel.buildInputPayload: spreads the runpod provider options
with the polling keys filtered out, then assigns the fields computed from
the typed call options. -/
def videoBuildInputPayload (o : VideoCallOptions) (runpodOptions : Fields) :
    Fields :=
  let apiOptions := runpodOptions.filter
    (fun kv => !(kv.1 == "maxPollAttempts") && !(kv.1 == "pollIntervalMillis"))
  let input : Fields := spread [] apiOptions
  let input := if o.prompt == "" then input else setKey input "prompt" (.str o.prompt)
  let input := match o.duration with
    | some d => setKey input "duration" (.num d)
    | none => input
  let input := match o.fps with
    | some f => setKey input "fps" (.num f)
    | none => input
  let input := match o.seed with
    | some s => setKey input "seed" (.num s)
    | none => input
  let input :=
    if strTruthy o.resolution then
      setKey input "size" (.str (strReplaceCharFirst (o.resolution.getD "") 'x' '*'))
    else if strTruthy o.aspectRatioOpt then
      setKey input "aspect_ratio" (.str (o.aspectRatioOpt.getD ""))
    else input
  let input := match o.image with
    | some f => setKey input "image" (.str (convertFileToRunpodFormat f))
    | none => input
  input

/-- Error message thrown by RunpodVideoModel.extractVideoUrl when no URL is
recognized. -/
def videoMalformedMsg (output : JVal) : String :=
  "Runpod video generation completed but no video URL was found in the output: "
    ++ jsonStringify output

/-- RunpodVideoModel.extractVideoUrl: tries the string fields video_url,
result, url of an object in that order, then a bare string, otherwise fails
embedding the serialized output. -/
def extractVideoUrl : JVal → Except String String
  | .obj fields =>
      match getStrField fields "video_url" with
      | some s => .ok s
      | none =>
        match getStrField fields "result" with
        | some s => .ok s
        | none =>
          match getStrField fields "url" with
          | some s => .ok s
          | none => .error (videoMalformedMsg (.obj fields))
  | .str s => .ok s
  | v => .error (videoMalformedMsg v)

/-- One parsed response of the status polling endpoint
(runpodVideoStatusSchema). -/
structure VideoStatusResponse where
  id : Option String
  status : String
  output : Option JVal
  error : Option String

/-- Terminal outcome of RunpodVideoModel.pollForCompletion. The timeout
outcome carries the attempt count and interval that the thrown message
reports. -/
inductive VideoPollOutcome where
  | success (response : VideoStatusResponse)
  | jobFailed (message : String)
  | timedOut (maxAttempts : Nat) (pollIntervalMillis : Nat)
  | cancelled (message : String)

/-- Message of a terminal FAILED status: the remote error field unless it is
absent or empty (JavaScript falsy), in which case "Unknown error". -/
def errorOrUnknown (e : Option String) : String :=
  match e with
  | some s => if s == "" then "Unknown error" else s
  | none => "Unknown error"

/-- Loop body of RunpodVideoModel.pollForCompletion, starting at iteration
`attempt` with `remaining` of the `maxAttempts` iterations left. Returns
the outcome together with the number of status requests issued. -/
def videoPollFrom (responses : Nat → VideoStatusResponse)
    (abortedAt : Nat → Bool) (maxAttempts pollInterval : Nat) :
    Nat → Nat → VideoPollOutcome × Nat
  | _, 0 => (.timedOut maxAttempts pollInterval, 0)
  | attempt, rem + 1 =>
    if abortedAt attempt then (.cancelled "Video generation was aborted", 0)
    else
      let r := responses attempt
      if r.status == "COMPLETED" then (.success r, 1)
      else if r.status == "FAILED" then
        (.jobFailed ("Video generation failed: " ++ errorOrUnknown r.error), 1)
      else
        let next := videoPollFrom responses abortedAt maxAttempts pollInterval
          (attempt + 1) rem
        (next.1, next.2 + 1)

/-- Caller-overridable polling policy (maxAttempts, pollIntervalMillis). -/
structure PollOptions where
  maxAttempts : Option Nat
  pollIntervalMillis : Option Nat

/-- RunpodVideoModel.pollForCompletion: polls the status endpoint up to
`maxAttempts` (default 120) times, checking the abort signal at the top of
every iteration. `responses` gives the remote status observed by the
iteration-th request; `abortedAt` tells whether the caller's signal is set
when iteration starts. -/
def videoPollForCompletion (responses : Nat → VideoStatusResponse)
    (abortedAt : Nat → Bool) (pollOptions : Option PollOptions) :
    VideoPollOutcome × Nat :=
  let maxAttempts := (pollOptions.bind (·.maxAttempts)).getD 120
  let pollInterval := (pollOptions.bind (·.pollIntervalMillis)).getD 5000
  videoPollFrom responses abortedAt maxAttempts pollInterval 0 maxAttempts

/-- JavaScript `s.endsWith(suf)`, on the character lists. -/
def strEndsWith (s suf : String) : Bool :=
  listStartsWith s.toList.reverse suf.toList.reverse

/-- JavaScript `url?.replace(/\/$/, '')` of provider-utils
withoutTrailingSlash: removes one trailing slash. -/
def withoutTrailingSlash (s : String) : String :=
  if strEndsWith s "/" then ⟨s.toList.dropLast⟩ else s

/-- RunpodVideoModel.getRunpodRunUrl: keeps a base URL already ending in
/run or /runsync, otherwise appends /run. -/
def videoGetRunpodRunUrl (baseURL : String) : String :=
  let b := withoutTrailingSlash baseURL
  if strEndsWith b "/run" || strEndsWith b "/runsync" then b else b ++ "/run"

/-- RunpodSpeechModel.getRunpodRunSyncUrl: keeps a base URL already ending
in /run or /runsync, otherwise appends /runsync. -/
def speechGetRunpodRunSyncUrl (baseURL : String) : String :=
  let b := withoutTrailingSlash baseURL
  if strEndsWith b "/run" || strEndsWith b "/runsync" then b else b ++ "/runsync"

/-- Submission URL of RunpodImageModel.doGenerate: the /runsync suffix is
appended to the effective base URL unconditionally. -/
def imageSubmissionUrl (effectiveBaseURL : String) : String :=
  effectiveBaseURL ++ "/runsync"

/-!
Image model (runpod-image-model.ts, given as src/unnamed/part_008).
-/

/-- Runpod supported aspect ratio mapping of the image model
(SUPPORTED_ASPECT_RATIOS), in source order. -/
def SUPPORTED_ASPECT_RATIOS : List (String × String) :=
  [("1:1", "1328*1328"), ("4:3", "1472*1140"), ("3:4", "1140*1472")]

/-- Runpod supported size set of the image model (SUPPORTED_SIZES), in
source order. -/
def SUPPORTED_SIZES : List String :=
  ["1328*1328", "1472*1140", "1140*1472",
   "512*512", "768*768", "1024*1024", "1536*1536", "2048*2048", "4096*4096",
   "512*768", "768*512", "1024*768", "768*1024"]

/-- Lookup SUPPORTED_ASPECT_RATIOS[ar]. -/
def lookupAspect : List (String × String) → String → Option String
  | [], _ => none
  | (k, v) :: rest, ar => if k = ar then some v else lookupAspect rest ar

/-- Local error taxonomy of the image model. -/
inductive ImgError where
  | invalidArgument (argument : String) (message : String)

/-- Whether the model id denotes a Pruna model
(modelId.includes('pruna') or modelId.includes('p-image')). -/
def isPrunaModel (modelId : String) : Bool :=
  includesSubstr modelId "pruna" || includesSubstr modelId "p-image"

/-- Whether the model id denotes a Nano Banana Pro model
(modelId.includes('nano-banana-pro')). -/
def isNanoBananaProModel (modelId : String) : Bool :=
  includesSubstr modelId "nano-banana-pro"

/-- Message of the InvalidArgumentError raised for an unsupported size. -/
def unsupportedSizeMsg (size : String) : String :=
  "Size " ++ size ++ " is not supported by Runpod. Supported sizes: " ++
    String.intercalate ", "
      (SUPPORTED_SIZES.map (fun s => strReplaceCharFirst s '*' 'x'))

/-- Message of the InvalidArgumentError raised for an unsupported aspect
ratio. -/
def unsupportedAspectMsg (ar : String) : String :=
  "Aspect ratio " ++ ar ++
    " is not supported by Runpod. Supported aspect ratios: " ++
    String.intercalate ", " (SUPPORTED_ASPECT_RATIOS.map (·.1))

/-- Size determination and validation of RunpodImageModel.doGenerate
(the branch chain computing runpodSize): Pruna and Nano Banana Pro models
pass the aspect ratio through; otherwise a given size is converted to the
star separator and checked against SUPPORTED_SIZES, a given aspect ratio is
mapped through SUPPORTED_ASPECT_RATIOS, and the default is the square
1328*1328. -/
def imageDetermineSize (modelId : String) (size ar : Option String) :
    Except ImgError String :=
  if isPrunaModel modelId || isNanoBananaProModel modelId then
    .ok (if strTruthy ar then ar.getD "" else "1:1")
  else if strTruthy size then
    let sizeStr := size.getD ""
    let runpodSizeCandidate := strReplaceCharFirst sizeStr 'x' '*'
    if SUPPORTED_SIZES.contains runpodSizeCandidate then .ok runpodSizeCandidate
    else .error (.invalidArgument "size" (unsupportedSizeMsg sizeStr))
  else if strTruthy ar then
    let arStr := ar.getD ""
    match lookupAspect SUPPORTED_ASPECT_RATIOS arStr with
    | some mapped => .ok mapped
    | none => .error (.invalidArgument "aspectRatio" (unsupportedAspectMsg arStr))
  else .ok "1328*1328"

/-- Nullish read `runpodOptions?.k` where a JSON null also triggers the
`??` default. -/
def nullishGet (opts : Option Fields) (k : String) : Option JVal :=
  match opts with
  | none => none
  | some fs =>
    match getKey fs k with
    | some .null => none
    | some v => some v
    | none => none

/-- Nullish read with default: `runpodOptions?.k ?? d`. -/
def jgetD (opts : Option Fields) (k : String) (d : JVal) : JVal :=
  (nullishGet opts k).getD d

/-- Plain read `runpodOptions?.k` where only `undefined` counts as absent
(used by the `!== undefined` checks). -/
def definedGet (opts : Option Fields) (k : String) : Option JVal :=
  match opts with
  | none => none
  | some fs => getKey fs k

/-- JavaScript `Number(s)` on the numeral strings produced by a WxH size
(other strings, which the source turns into NaN, are mapped to 0). -/
def jsNumber (s : String) : Int := (s.toInt?).getD 0

/-- Seed field value `seed ?? -1`. -/
def seedOrNeg1 (seed : Option Int) : JVal := .num (seed.getD (-1))

/-- Replace the first occurrence of the sequence `pat` by `rep`
(JavaScript `s.replace(pat, rep)` with string arguments). -/
def replaceSeqFirst : List Char → List Char → List Char → List Char
  | [], _, _ => []
  | c :: rest, pat, rep =>
      if listStartsWith (c :: rest) pat then rep ++ (c :: rest).drop pat.length
      else c :: replaceSeqFirst rest pat rep

/-- String wrapper for `replaceSeqFirst`. -/
def strReplaceSeqFirst (s pat rep : String) : String :=
  ⟨replaceSeqFirst s.toList pat.toList rep.toList⟩

/-- Effective base URL of RunpodImageModel.doGenerate: for a
qwen-image-edit-2511 model that is not already the lora variant and whose
runpod options carry a non-empty loras array, the base URL is switched to
the lora endpoint. -/
def imageEffectiveBaseURL (modelId baseURL : String)
    (runpodOptions : Option Fields) : String :=
  if includesSubstr modelId "qwen-image-edit-2511"
      && !(includesSubstr modelId "lora")
      && (match definedGet runpodOptions "loras" with
          | some (.arr (_ :: _)) => true
          | _ => false) then
    strReplaceSeqFirst baseURL "qwen-image-edit-2511" "qwen-image-edit-2511-lora"
  else baseURL

/-- The aspect_ratio field value
`(runpodOptions?.aspect_ratio as string) ?? aspectRatio ?? '1:1'` shared by
the Pruna and Nano Banana Pro branches. -/
def aspectFieldValue (runpodOptions : Option Fields) (ar : Option String) : JVal :=
  match nullishGet runpodOptions "aspect_ratio" with
  | some v => v
  | none => .str (ar.getD "1:1")

/-- Seed assignment of the Pruna branches: an explicit seed wins, otherwise
a seed defined in the runpod options (even a null one) is copied. -/
def prunaSetSeed (payload : Fields) (seed : Option Int)
    (runpodOptions : Option Fields) : Fields :=
  match seed with
  | some s => setKey payload "seed" (.num s)
  | none =>
    match definedGet runpodOptions "seed" with
    | some v => setKey payload "seed" v
    | none => payload

/-- Images assignment shared by the Pruna edit, Nano Banana Pro and Qwen
2511 branches: standardized files win, otherwise a truthy
runpodOptions.images value is copied. -/
def setImagesField (payload : Fields) (runpodOptions : Option Fields)
    (standardizedImages : Option (List String)) : Fields :=
  match standardizedImages with
  | some (img :: rest) => setKey payload "images" (.arr ((img :: rest).map .str))
  | _ =>
    match definedGet runpodOptions "images" with
    | some v => if jvTruthy v then setKey payload "images" v else payload
    | none => payload

/-- RunpodImageModel.buildInputPayload: the per-family payload adapter
branch chain (Flux Kontext, Flux, Pruna edit, Pruna t2i, Nano Banana Pro,
Qwen Image Edit 2511, Wan, default). -/
def imageBuildInputPayload (modelId prompt runpodSize : String)
    (seed : Option Int) (runpodOptions : Option Fields) (ar : Option String)
    (standardizedImages : Option (List String)) : Fields :=
  if includesSubstr modelId "flux" || includesSubstr modelId "black-forest-labs" then
    if includesSubstr modelId "kontext" then
      let kontextPayload : Fields :=
        [("prompt", .str prompt),
         ("negative_prompt", jgetD runpodOptions "negative_prompt" (.str "")),
         ("seed", seedOrNeg1 seed),
         ("num_inference_steps", .num 28),
         ("guidance", .num 2),
         ("size", .str runpodSize),
         ("output_format", .str "png"),
         ("enable_safety_checker", jgetD runpodOptions "enable_safety_checker" (.bool true))]
      let kontextPayload := spread kontextPayload (runpodOptions.getD [])
      match standardizedImages with
      | some (img :: _) => setKey kontextPayload "image" (.str img)
      | _ => kontextPayload
    else
      let parts := runpodSize.splitOn "*"
      let width := jsNumber (parts.getD 0 "")
      let height := jsNumber (parts.getD 1 "")
      let fluxPayload : Fields :=
        [("prompt", .str prompt),
         ("negative_prompt", jgetD runpodOptions "negative_prompt" (.str "")),
         ("seed", seedOrNeg1 seed),
         ("num_inference_steps", .num (if includesSubstr modelId "schnell" then 4 else 28)),
         ("guidance", .num (if includesSubstr modelId "schnell" then 7 else 2)),
         ("width", .num width),
         ("height", .num height),
         ("image_format", .str "png")]
      spread fluxPayload (runpodOptions.getD [])
  else if isPrunaModel modelId then
    if includesSubstr modelId "edit" then
      let editPayload : Fields :=
        [("prompt", .str prompt),
         ("aspect_ratio", aspectFieldValue runpodOptions ar),
         ("disable_safety_checker", jgetD runpodOptions "disable_safety_checker" (.bool false))]
      let editPayload := prunaSetSeed editPayload seed runpodOptions
      setImagesField editPayload runpodOptions standardizedImages
    else
      let t2iPayload : Fields :=
        [("prompt", .str prompt),
         ("aspect_ratio", aspectFieldValue runpodOptions ar),
         ("disable_safety_checker", jgetD runpodOptions "disable_safety_checker" (.bool false))]
      let t2iPayload := prunaSetSeed t2iPayload seed runpodOptions
      let isCustom :=
        match getKey t2iPayload "aspect_ratio" with
        | some (.str a) => a == "custom"
        | _ => false
      if isCustom then
        let t2iPayload :=
          match definedGet runpodOptions "width" with
          | some v => if jvTruthy v then setKey t2iPayload "width" v else t2iPayload
          | none => t2iPayload
        match definedGet runpodOptions "height" with
        | some v => if jvTruthy v then setKey t2iPayload "height" v else t2iPayload
        | none => t2iPayload
      else t2iPayload
  else if isNanoBananaProModel modelId then
    let nanoBananaPayload : Fields :=
      [("prompt", .str prompt),
       ("aspect_ratio", aspectFieldValue runpodOptions ar),
       ("resolution", jgetD runpodOptions "resolution" (.str "1k")),
       ("output_format", jgetD runpodOptions "output_format" (.str "jpeg")),
       ("enable_base64_output", jgetD runpodOptions "enable_base64_output" (.bool false)),
       ("enable_sync_mode", jgetD runpodOptions "enable_sync_mode" (.bool false))]
    setImagesField nanoBananaPayload runpodOptions standardizedImages
  else if includesSubstr modelId "qwen-image-edit-2511" then
    let qwenEdit2511Payload : Fields :=
      [("prompt", .str prompt),
       ("size", .str runpodSize),
       ("seed", seedOrNeg1 seed),
       ("output_format", jgetD runpodOptions "output_format" (.str "jpeg")),
       ("enable_base64_output", jgetD runpodOptions "enable_base64_output" (.bool false)),
       ("enable_sync_mode", jgetD runpodOptions "enable_sync_mode" (.bool false))]
    let qwenEdit2511Payload := spread qwenEdit2511Payload (runpodOptions.getD [])
    setImagesField qwenEdit2511Payload runpodOptions standardizedImages
  else if includesSubstr modelId "wan-2" then
    let wanPayload : Fields :=
      [("prompt", .str prompt),
       ("size", .str runpodSize),
       ("seed", seedOrNeg1 seed),
       ("enable_safety_checker", jgetD runpodOptions "enable_safety_checker" (.bool true))]
    spread wanPayload (runpodOptions.getD [])
  else
    let defaultPayload : Fields :=
      [("prompt", .str prompt),
       ("negative_prompt", jgetD runpodOptions "negative_prompt" (.str "")),
       ("size", .str runpodSize),
       ("seed", seedOrNeg1 seed),
       ("enable_safety_checker", jgetD runpodOptions "enable_safety_checker" (.bool true))]
    let defaultPayload := spread defaultPayload (runpodOptions.getD [])
    match standardizedImages with
    | some (img :: rest) =>
      if rest = [] then setKey defaultPayload "image" (.str img)
      else setKey defaultPayload "images" (.arr ((img :: rest).map .str))
    | _ => defaultPayload

/-- Pre-submission phase of RunpodImageModel.doGenerate: validates the size
or aspect ratio, and on success produces the single submission request (the
/runsync URL paired with the input payload). On a validation error the
request list is empty: no transport call is made. -/
def imageSubmitRequests (modelId baseURL prompt : String)
    (size ar : Option String) (seed : Option Int)
    (runpodOptions : Option Fields)
    (standardizedImages : Option (List String)) :
    List (String × Fields) × Except ImgError String :=
  match imageDetermineSize modelId size ar with
  | .error e => ([], .error e)
  | .ok runpodSize =>
    let payload := imageBuildInputPayload modelId prompt runpodSize seed
      runpodOptions ar standardizedImages
    let effectiveBaseURL := imageEffectiveBaseURL modelId baseURL runpodOptions
    ([(imageSubmissionUrl effectiveBaseURL, payload)], .ok runpodSize)

/-- Output object of the image status schema (runpodImageStatusSchema). -/
structure ImageOutput where
  cost : Option Int
  result : Option String
  image_url : Option String

/-- One parsed response of the image status polling endpoint. -/
structure ImageStatusResponse where
  id : String
  status : String
  output : Option ImageOutput
  error : Option String

/-- The truthy result URL of a COMPLETED image status:
`output?.result || output?.image_url` with JavaScript truthiness; `none`
when neither field is a non-empty string. -/
def truthyResultUrl (out : Option ImageOutput) : Option String :=
  match out with
  | none => none
  | some o =>
    if strTruthy o.result then some (o.result.getD "")
    else if strTruthy o.image_url then some (o.image_url.getD "")
    else none

/-- Terminal outcome of RunpodImageModel.pollForCompletion. -/
inductive ImagePollOutcome where
  | success (url : String)
  | jobFailed (message : String)
  | timedOut (maxAttempts : Nat) (pollIntervalMillis : Nat)
  | cancelled (message : String)

/-- Loop body of RunpodImageModel.pollForCompletion: a COMPLETED status is
terminal only when it carries a truthy result or image_url; a FAILED status
is always terminal; anything else keeps polling. -/
def imagePollFrom (responses : Nat → ImageStatusResponse)
    (abortedAt : Nat → Bool) (maxAttempts pollInterval : Nat) :
    Nat → Nat → ImagePollOutcome × Nat
  | _, 0 => (.timedOut maxAttempts pollInterval, 0)
  | attempt, rem + 1 =>
    if abortedAt attempt then (.cancelled "Image generation was aborted", 0)
    else
      let r := responses attempt
      match (if r.status == "COMPLETED" then truthyResultUrl r.output else none) with
      | some u => (.success u, 1)
      | none =>
        if r.status == "FAILED" then
          (.jobFailed ("Image generation failed: " ++ errorOrUnknown r.error), 1)
        else
          let next := imagePollFrom responses abortedAt maxAttempts pollInterval
            (attempt + 1) rem
          (next.1, next.2 + 1)

/-- RunpodImageModel.pollForCompletion with its defaults of 60 attempts and
5000 ms. -/
def imagePollForCompletion (responses : Nat → ImageStatusResponse)
    (abortedAt : Nat → Bool) (pollOptions : Option PollOptions) :
    ImagePollOutcome × Nat :=
  let maxAttempts := (pollOptions.bind (·.maxAttempts)).getD 60
  let pollInterval := (pollOptions.bind (·.pollIntervalMillis)).getD 5000
  imagePollFrom responses abortedAt maxAttempts pollInterval 0 maxAttempts

/-!
Speech model (src/runpod-speech-model.ts).
-/

/-- Whether the character is a carriage return or a line feed (the
character class of the regex [\r\n]). -/
def isNewlineChar (c : Char) : Bool :=
  c == Char.ofNat 13 || c == Char.ofNat 10

/-- The function replaceNewlinesWithSpaces of the speech model: the global
regex replace of [\r\n]+ by one space, on the character list. -/
def replaceNewlineChars : List Char → List Char
  | [] => []
  | c :: rest =>
    if isNewlineChar c then
      Char.ofNat 32 :: replaceNewlineChars (rest.dropWhile isNewlineChar)
    else c :: replaceNewlineChars rest
termination_by l => l.length
decreasing_by
  all_goals
    have hdw : ∀ (p : Char → Bool) (l : List Char),
        (List.dropWhile p l).length ≤ l.length := by
      intro p l
      induction l with
      | nil => simp [List.dropWhile]
      | cons a t ih =>
        simp only [List.dropWhile_cons]
        split
        · exact Nat.le_succ_of_le ih
        · exact Nat.le_refl _
    simp only [List.length_cons]
    exact Nat.lt_succ_of_le (by first | exact hdw _ _ | exact Nat.le_refl _)

/-- The function replaceNewlinesWithSpaces on strings. -/
def replaceNewlinesWithSpaces (s : String) : String :=
  ⟨replaceNewlineChars s.toList⟩

/-- Specification-side reading of the claim: split the text into maximal
segments, replace every maximal run of newline characters by a single
space and keep every maximal newline-free segment unchanged. Stated as a
second definition to be compared with the source-side
`replaceNewlineChars`. -/
def collapseNewlineRuns : List Char → List Char
  | [] => []
  | c :: rest =>
    if isNewlineChar c then
      Char.ofNat 32 :: collapseNewlineRuns (rest.dropWhile isNewlineChar)
    else
      c :: (rest.takeWhile (fun x => !isNewlineChar x)) ++
        collapseNewlineRuns (rest.dropWhile (fun x => !isNewlineChar x))
termination_by l => l.length
decreasing_by
  all_goals
    have hdw : ∀ (p : Char → Bool) (l : List Char),
        (List.dropWhile p l).length ≤ l.length := by
      intro p l
      induction l with
      | nil => simp [List.dropWhile]
      | cons a t ih =>
        simp only [List.dropWhile_cons]
        split
        · exact Nat.le_succ_of_le ih
        · exact Nat.le_refl _
    simp only [List.length_cons]
    exact Nat.lt_succ_of_le (hdw _ _)

/-- Input payload construction of RunpodSpeechModel.doGenerate: the prompt
is the newline-collapsed text; a truthy voice URL wins over a voice name. -/
def speechBuildInput (text : String) (voiceUrl voice : Option String) : Fields :=
  let input : Fields := [("prompt", .str (replaceNewlinesWithSpaces text))]
  if strTruthy voiceUrl then setKey input "voice_url" (.str (voiceUrl.getD ""))
  else if strTruthy voice then setKey input "voice" (.str (voice.getD ""))
  else input

/-!
Helper lemmas about the JavaScript object model.
-/

/-- Reading the key just assigned returns the assigned value. -/
theorem getKey_setKey_self (l : Fields) (k : String) (v : JVal) :
    getKey (setKey l k v) k = some v := by
  induction l with
  | nil => simp [setKey, getKey]
  | cons kv rest ih =>
    by_cases h : kv.1 = k
    · simp [setKey, getKey, h]
    · simp [setKey, getKey, h, ih]

/-- Assigning one key leaves the other keys unchanged. -/
theorem getKey_setKey_ne (l : Fields) (k' k : String) (v : JVal)
    (h : k' ≠ k) : getKey (setKey l k' v) k = getKey l k := by
  induction l with
  | nil => simp [setKey, getKey, h]
  | cons kv rest ih =>
    by_cases h' : kv.1 = k'
    · simp [setKey, getKey, h', h]
    · simp only [setKey, getKey, h', if_false]
      by_cases hk2 : kv.1 = k
      · simp [hk2]
      · simp [hk2, ih]

/-- Key presence after an assignment. -/
theorem hasKey_setKey (l : Fields) (k' k : String) (v : JVal) :
    hasKey (setKey l k' v) k = ((k' == k) || hasKey l k) := by
  by_cases h : k' = k
  · subst h; simp [hasKey, getKey_setKey_self]
  · simp [hasKey, getKey_setKey_ne l k' k v h, h]

/-- Unfolding of a spread over a cons. -/
theorem spread_cons (base : Fields) (kv : String × JVal) (rest : Fields) :
    spread base (kv :: rest) = spread (setKey base kv.1 kv.2) rest := rfl

/-- Spreading an object none of whose keys is `k` does not affect `k`. -/
theorem getKey_spread_of_ne (extra : Fields) (k : String)
    (h : ∀ kv ∈ extra, kv.1 ≠ k) :
    ∀ base : Fields, getKey (spread base extra) k = getKey base k := by
  induction extra with
  | nil => intro base; rfl
  | cons kv rest ih =>
    intro base
    rw [spread_cons]
    rw [ih (fun kv' h' => h kv' (List.mem_cons_of_mem _ h'))]
    exact getKey_setKey_ne base kv.1 k kv.2 (h kv (List.mem_cons_self _ _))

/-!
Helper lemmas about the polling loops.
-/

/-- The video poll loop never issues more requests than it has iterations
left. -/
theorem videoPollFrom_count_le (responses : Nat → VideoStatusResponse)
    (ab : Nat → Bool) (maxA interval : Nat) :
    ∀ rem attempt, (videoPollFrom responses ab maxA interval attempt rem).2 ≤ rem := by
  intro rem
  induction rem with
  | zero => intro attempt; simp [videoPollFrom]
  | succ n ih =>
    intro attempt
    simp only [videoPollFrom]
    split
    · simp
    · split
      · simp
      · split
        · simp
        · simpa using Nat.succ_le_succ (ih (attempt + 1))

/-- Every request the video poll loop issues happens at an iteration whose
abort check came back false. -/
theorem videoPollFrom_issued_unaborted (responses : Nat → VideoStatusResponse)
    (ab : Nat → Bool) (maxA interval : Nat) :
    ∀ rem attempt k,
      k < (videoPollFrom responses ab maxA interval attempt rem).2 →
      ab (attempt + k) = false := by
  intro rem
  induction rem with
  | zero => intro attempt k h; simp [videoPollFrom] at h
  | succ n ih =>
    intro attempt k h
    simp only [videoPollFrom] at h
    by_cases hab : ab attempt
    · simp [hab] at h
    · simp only [hab, if_false] at h
      rcases Nat.eq_zero_or_pos k with hk | hk
      · subst hk; simpa using hab
      · obtain ⟨j, rfl⟩ := Nat.exists_eq_add_of_lt hk
        rw [Nat.zero_add] at *
        by_cases hc : ((responses attempt).status == "COMPLETED")
        · simp [hc] at h
        · by_cases hf : ((responses attempt).status == "FAILED")
          · simp [hc, hf] at h
          · simp only [hc, hf, if_false] at h
            have := ih (attempt + 1) j (by simp at h; omega)
            simpa [Nat.add_assoc, Nat.add_comm 1 j] using this

/-- If the observed statuses stay non-terminal and the signal stays unset,
the video poll loop spends all remaining iterations and times out. -/
theorem videoPollFrom_timeout (responses : Nat → VideoStatusResponse)
    (ab : Nat → Bool) (maxA interval : Nat) :
    ∀ rem attempt,
      (∀ i, attempt ≤ i → i < attempt + rem → ab i = false) →
      (∀ i, attempt ≤ i → i < attempt + rem →
        ((responses i).status == "COMPLETED") = false ∧
        ((responses i).status == "FAILED") = false) →
      videoPollFrom responses ab maxA interval attempt rem =
        (.timedOut maxA interval, rem) := by
  intro rem
  induction rem with
  | zero => intro attempt _ _; simp [videoPollFrom]
  | succ n ih =>
    intro attempt hab hnt
    have h0 := hab attempt (Nat.le_refl _) (by omega)
    have h1 := hnt attempt (Nat.le_refl _) (by omega)
    simp only [videoPollFrom, h0, h1.1, h1.2, if_false]
    rw [ih (attempt + 1) (fun i hi hi' => hab i (by omega) (by omega))
      (fun i hi hi' => hnt i (by omega) (by omega))]
    simp

/-- If the first `k` observed statuses are non-terminal, the signal is
unset through iteration `k`, and iteration `k` observes COMPLETED, the
video poll loop succeeds with that response after exactly `k + 1`
requests. -/
theorem videoPollFrom_success (responses : Nat → VideoStatusResponse)
    (ab : Nat → Bool) (maxA interval : Nat) :
    ∀ k rem attempt, k < rem →
      (∀ i, i ≤ k → ab (attempt + i) = false) →
      (∀ i, i < k →
        ((responses (attempt + i)).status == "COMPLETED") = false ∧
        ((responses (attempt + i)).status == "FAILED") = false) →
      ((responses (attempt + k)).status == "COMPLETED") = true →
      videoPollFrom responses ab maxA interval attempt rem =
        (.success (responses (attempt + k)), k + 1) := by
  intro k
  induction k with
  | zero =>
    intro rem attempt hrem hab _ hc
    obtain ⟨m, rfl⟩ : ∃ m, rem = m + 1 := ⟨rem - 1, by omega⟩
    have h0 := hab 0 (Nat.le_refl _)
    simp only [Nat.add_zero] at h0 hc
    simp [videoPollFrom, h0, hc]
  | succ j ih =>
    intro rem attempt hrem hab hnt
    intro hc
    obtain ⟨m, rfl⟩ : ∃ m, rem = m + 1 := ⟨rem - 1, by omega⟩
    have h0 := hab 0 (by omega)
    have h1 := hnt 0 (by omega)
    simp only [Nat.add_zero] at h0 h1
    simp only [videoPollFrom, h0, h1.1, h1.2, if_false, Bool.false_eq_true]
    have := ih m (attempt + 1) (by omega)
      (fun i hi => by
        have := hab (i + 1) (by omega)
        simpa [Nat.add_assoc, Nat.add_comm 1 i] using this)
      (fun i hi => by
        have := hnt (i + 1) (by omega)
        simpa [Nat.add_assoc, Nat.add_comm 1 i] using this)
      (by simpa [Nat.add_assoc, Nat.add_comm 1 j] using hc)
    rw [this]
    simp [Nat.add_assoc, Nat.add_comm 1 j]

/-- If the first `k` observed statuses are non-terminal, the signal is
unset through iteration `k`, and iteration `k` observes FAILED, the video
poll loop fails with the modality-prefixed message after exactly `k + 1`
requests. -/
theorem videoPollFrom_failed (responses : Nat → VideoStatusResponse)
    (ab : Nat → Bool) (maxA interval : Nat) :
    ∀ k rem attempt, k < rem →
      (∀ i, i ≤ k → ab (attempt + i) = false) →
      (∀ i, i < k →
        ((responses (attempt + i)).status == "COMPLETED") = false ∧
        ((responses (attempt + i)).status == "FAILED") = false) →
      ((responses (attempt + k)).status == "COMPLETED") = false →
      ((responses (attempt + k)).status == "FAILED") = true →
      videoPollFrom responses ab maxA interval attempt rem =
        (.jobFailed ("Video generation failed: " ++
          errorOrUnknown (responses (attempt + k)).error), k + 1) := by
  intro k
  induction k with
  | zero =>
    intro rem attempt hrem hab _ hc hf
    obtain ⟨m, rfl⟩ : ∃ m, rem = m + 1 := ⟨rem - 1, by omega⟩
    have h0 := hab 0 (Nat.le_refl _)
    simp only [Nat.add_zero] at h0 hc hf
    simp [videoPollFrom, h0, hc, hf]
  | succ j ih =>
    intro rem attempt hrem hab hnt hc hf
    obtain ⟨m, rfl⟩ : ∃ m, rem = m + 1 := ⟨rem - 1, by omega⟩
    have h0 := hab 0 (by omega)
    have h1 := hnt 0 (by omega)
    simp only [Nat.add_zero] at h0 h1
    simp only [videoPollFrom, h0, h1.1, h1.2, if_false, Bool.false_eq_true]
    have := ih m (attempt + 1) (by omega)
      (fun i hi => by
        have := hab (i + 1) (by omega)
        simpa [Nat.add_assoc, Nat.add_comm 1 i] using this)
      (fun i hi => by
        have := hnt (i + 1) (by omega)
        simpa [Nat.add_assoc, Nat.add_comm 1 i] using this)
      (by simpa [Nat.add_assoc, Nat.add_comm 1 j] using hc)
      (by simpa [Nat.add_assoc, Nat.add_comm 1 j] using hf)
    rw [this]
    simp [Nat.add_assoc, Nat.add_comm 1 j]

/-- If the first `k` observed statuses are non-terminal with the signal
unset, and at iteration `k` the signal is found set, the video poll loop
is cancelled after exactly `k` requests, without issuing the request of
iteration `k`. -/
theorem videoPollFrom_cancelled (responses : Nat → VideoStatusResponse)
    (ab : Nat → Bool) (maxA interval : Nat) :
    ∀ k rem attempt, k < rem →
      (∀ i, i < k → ab (attempt + i) = false) →
      (∀ i, i < k →
        ((responses (attempt + i)).status == "COMPLETED") = false ∧
        ((responses (attempt + i)).status == "FAILED") = false) →
      ab (attempt + k) = true →
      videoPollFrom responses ab maxA interval attempt rem =
        (.cancelled "Video generation was aborted", k) := by
  intro k
  induction k with
  | zero =>
    intro rem attempt hrem _ _ hset
    obtain ⟨m, rfl⟩ : ∃ m, rem = m + 1 := ⟨rem - 1, by omega⟩
    simp only [Nat.add_zero] at hset
    simp [videoPollFrom, hset]
  | succ j ih =>
    intro rem attempt hrem hab hnt hset
    obtain ⟨m, rfl⟩ : ∃ m, rem = m + 1 := ⟨rem - 1, by omega⟩
    have h0 := hab 0 (by omega)
    have h1 := hnt 0 (by omega)
    simp only [Nat.add_zero] at h0 h1
    simp only [videoPollFrom, h0, h1.1, h1.2, if_false, Bool.false_eq_true]
    have := ih m (attempt + 1) (by omega)
      (fun i hi => by
        have := hab (i + 1) (by omega)
        simpa [Nat.add_assoc, Nat.add_comm 1 i] using this)
      (fun i hi => by
        have := hnt (i + 1) (by omega)
        simpa [Nat.add_assoc, Nat.add_comm 1 i] using this)
      (by simpa [Nat.add_assoc, Nat.add_comm 1 j] using hset)
    rw [this]

/-- The image poll loop never issues more requests than it has iterations
left. -/
theorem imagePollFrom_count_le (responses : Nat → ImageStatusResponse)
    (ab : Nat → Bool) (maxA interval : Nat) :
    ∀ rem attempt, (imagePollFrom responses ab maxA interval attempt rem).2 ≤ rem := by
  intro rem
  induction rem with
  | zero => intro attempt; simp [imagePollFrom]
  | succ n ih =>
    intro attempt
    simp only [imagePollFrom]
    split
    · simp
    · split
      · simp
      · split
        · simp
        · simpa using Nat.succ_le_succ (ih (attempt + 1))

/-- Every request the image poll loop issues happens at an iteration whose
abort check came back false. -/
theorem imagePollFrom_issued_unaborted (responses : Nat → ImageStatusResponse)
    (ab : Nat → Bool) (maxA interval : Nat) :
    ∀ rem attempt k,
      k < (imagePollFrom responses ab maxA interval attempt rem).2 →
      ab (attempt + k) = false := by
  intro rem
  induction rem with
  | zero => intro attempt k h; simp [imagePollFrom] at h
  | succ n ih =>
    intro attempt k h
    simp only [imagePollFrom] at h
    by_cases hab : ab attempt
    · simp [hab] at h
    · simp only [hab, if_false] at h
      rcases Nat.eq_zero_or_pos k with hk | hk
      · subst hk; simpa using hab
      · obtain ⟨j, rfl⟩ := Nat.exists_eq_add_of_lt hk
        rw [Nat.zero_add] at *
        rcases hvu : (if ((responses attempt).status == "COMPLETED") = true then
            truthyResultUrl (responses attempt).output else none) with _ | u
        · rw [hvu] at h
          by_cases hf : ((responses attempt).status == "FAILED")
          · simp [hf] at h
          · simp only [hf, if_false] at h
            have := ih (attempt + 1) j (by simp at h; omega)
            simpa [Nat.add_assoc, Nat.add_comm 1 j] using this
        · rw [hvu] at h
          simp at h

/-- If the observed statuses are neither COMPLETED nor FAILED and the
signal stays unset, the image poll loop spends all remaining iterations
and times out. -/
theorem imagePollFrom_timeout (responses : Nat → ImageStatusResponse)
    (ab : Nat → Bool) (maxA interval : Nat) :
    ∀ rem attempt,
      (∀ i, attempt ≤ i → i < attempt + rem → ab i = false) →
      (∀ i, attempt ≤ i → i < attempt + rem →
        ((responses i).status == "COMPLETED") = false ∧
        ((responses i).status == "FAILED") = false) →
      imagePollFrom responses ab maxA interval attempt rem =
        (.timedOut maxA interval, rem) := by
  intro rem
  induction rem with
  | zero => intro attempt _ _; simp [imagePollFrom]
  | succ n ih =>
    intro attempt hab hnt
    have h0 := hab attempt (Nat.le_refl _) (by omega)
    have h1 := hnt attempt (Nat.le_refl _) (by omega)
    simp only [imagePollFrom, h0, h1.1, h1.2, if_false, Bool.false_eq_true]
    rw [ih (attempt + 1) (fun i hi hi' => hab i (by omega) (by omega))
      (fun i hi hi' => hnt i (by omega) (by omega))]

/-- If the first `k` image statuses are non-terminal, the signal stays
unset through iteration `k`, and iteration `k` observes COMPLETED with a
truthy result URL, the image poll loop returns that URL after exactly
`k + 1` requests. -/
theorem imagePollFrom_success (responses : Nat → ImageStatusResponse)
    (ab : Nat → Bool) (maxA interval : Nat) :
    ∀ k rem attempt (u : String), k < rem →
      (∀ i, i ≤ k → ab (attempt + i) = false) →
      (∀ i, i < k →
        ((responses (attempt + i)).status == "COMPLETED") = false ∧
        ((responses (attempt + i)).status == "FAILED") = false) →
      ((responses (attempt + k)).status == "COMPLETED") = true →
      truthyResultUrl (responses (attempt + k)).output = some u →
      imagePollFrom responses ab maxA interval attempt rem =
        (.success u, k + 1) := by
  intro k
  induction k with
  | zero =>
    intro rem attempt u hrem hab _ hc hu
    obtain ⟨m, rfl⟩ : ∃ m, rem = m + 1 := ⟨rem - 1, by omega⟩
    have h0 := hab 0 (Nat.le_refl _)
    simp only [Nat.add_zero] at h0 hc hu
    simp [imagePollFrom, h0, hc, hu]
  | succ j ih =>
    intro rem attempt u hrem hab hnt hc hu
    obtain ⟨m, rfl⟩ : ∃ m, rem = m + 1 := ⟨rem - 1, by omega⟩
    have h0 := hab 0 (by omega)
    have h1 := hnt 0 (by omega)
    simp only [Nat.add_zero] at h0 h1
    simp only [imagePollFrom, h0, h1.1, h1.2, if_false, Bool.false_eq_true]
    have := ih m (attempt + 1) u (by omega)
      (fun i hi => by
        have := hab (i + 1) (by omega)
        simpa [Nat.add_assoc, Nat.add_comm 1 i] using this)
      (fun i hi => by
        have := hnt (i + 1) (by omega)
        simpa [Nat.add_assoc, Nat.add_comm 1 i] using this)
      (by simpa [Nat.add_assoc, Nat.add_comm 1 j] using hc)
      (by simpa [Nat.add_assoc, Nat.add_comm 1 j] using hu)
    rw [this]

/-- If the first `k` image statuses are non-terminal, the signal stays
unset through iteration `k`, and iteration `k` observes FAILED, the image
poll loop fails with the modality-prefixed message after exactly `k + 1`
requests. -/
theorem imagePollFrom_failed (responses : Nat → ImageStatusResponse)
    (ab : Nat → Bool) (maxA interval : Nat) :
    ∀ k rem attempt, k < rem →
      (∀ i, i ≤ k → ab (attempt + i) = false) →
      (∀ i, i < k →
        ((responses (attempt + i)).status == "COMPLETED") = false ∧
        ((responses (attempt + i)).status == "FAILED") = false) →
      ((responses (attempt + k)).status == "COMPLETED") = false →
      ((responses (attempt + k)).status == "FAILED") = true →
      imagePollFrom responses ab maxA interval attempt rem =
        (.jobFailed ("Image generation failed: " ++
          errorOrUnknown (responses (attempt + k)).error), k + 1) := by
  intro k
  induction k with
  | zero =>
    intro rem attempt hrem hab _ hc hf
    obtain ⟨m, rfl⟩ : ∃ m, rem = m + 1 := ⟨rem - 1, by omega⟩
    have h0 := hab 0 (Nat.le_refl _)
    simp only [Nat.add_zero] at h0 hc hf
    simp [imagePollFrom, h0, hc, hf]
  | succ j ih =>
    intro rem attempt hrem hab hnt hc hf
    obtain ⟨m, rfl⟩ : ∃ m, rem = m + 1 := ⟨rem - 1, by omega⟩
    have h0 := hab 0 (by omega)
    have h1 := hnt 0 (by omega)
    simp only [Nat.add_zero] at h0 h1
    simp only [imagePollFrom, h0, h1.1, h1.2, if_false, Bool.false_eq_true]
    have := ih m (attempt + 1) (by omega)
      (fun i hi => by
        have := hab (i + 1) (by omega)
        simpa [Nat.add_assoc, Nat.add_comm 1 i] using this)
      (fun i hi => by
        have := hnt (i + 1) (by omega)
        simpa [Nat.add_assoc, Nat.add_comm 1 i] using this)
      (by simpa [Nat.add_assoc, Nat.add_comm 1 j] using hc)
      (by simpa [Nat.add_assoc, Nat.add_comm 1 j] using hf)
    rw [this]
    simp [Nat.add_assoc, Nat.add_comm 1 j]

/-- If the first `k` image statuses are non-terminal with the signal
unset, and at iteration `k` the signal is found set, the image poll loop
is cancelled after exactly `k` requests. -/
theorem imagePollFrom_cancelled (responses : Nat → ImageStatusResponse)
    (ab : Nat → Bool) (maxA interval : Nat) :
    ∀ k rem attempt, k < rem →
      (∀ i, i < k → ab (attempt + i) = false) →
      (∀ i, i < k →
        ((responses (attempt + i)).status == "COMPLETED") = false ∧
        ((responses (attempt + i)).status == "FAILED") = false) →
      ab (attempt + k) = true →
      imagePollFrom responses ab maxA interval attempt rem =
        (.cancelled "Image generation was aborted", k) := by
  intro k
  induction k with
  | zero =>
    intro rem attempt hrem _ _ hset
    obtain ⟨m, rfl⟩ : ∃ m, rem = m + 1 := ⟨rem - 1, by omega⟩
    simp only [Nat.add_zero] at hset
    simp [imagePollFrom, hset]
  | succ j ih =>
    intro rem attempt hrem hab hnt hset
    obtain ⟨m, rfl⟩ : ∃ m, rem = m + 1 := ⟨rem - 1, by omega⟩
    have h0 := hab 0 (by omega)
    have h1 := hnt 0 (by omega)
    simp only [Nat.add_zero] at h0 h1
    simp only [imagePollFrom, h0, h1.1, h1.2, if_false, Bool.false_eq_true]
    have := ih m (attempt + 1) (by omega)
      (fun i hi => by
        have := hab (i + 1) (by omega)
        simpa [Nat.add_assoc, Nat.add_comm 1 i] using this)
      (fun i hi => by
        have := hnt (i + 1) (by omega)
        simpa [Nat.add_assoc, Nat.add_comm 1 i] using this)
      (by simpa [Nat.add_assoc, Nat.add_comm 1 j] using hset)
    rw [this]

/-!
Helper lemmas about the newline-collapsing transform.
-/

/-- Dropping a prefix never lengthens a list. -/
theorem dropWhile_length_le {α : Type} (p : α → Bool) (l : List α) :
    (l.dropWhile p).length ≤ l.length := by
  induction l with
  | nil => simp [List.dropWhile]
  | cons a t ih =>
    simp only [List.dropWhile_cons]
    split
    · exact Nat.le_succ_of_le ih
    · exact Nat.le_refl _

/-- Peeling one maximal newline-free segment off `collapseNewlineRuns`. -/
theorem collapse_segment (rest : List Char) :
    rest.takeWhile (fun x => !isNewlineChar x) ++
      collapseNewlineRuns (rest.dropWhile (fun x => !isNewlineChar x)) =
    collapseNewlineRuns rest := by
  cases rest with
  | nil => simp [collapseNewlineRuns]
  | cons d r' =>
    by_cases hd : isNewlineChar d
    · simp [List.takeWhile_cons, List.dropWhile_cons, hd]
    · simp only [List.takeWhile_cons, List.dropWhile_cons, hd]
      simp only [Bool.not_false, if_true, List.cons_append]
      rw [collapseNewlineRuns]
      simp [hd]

/-- The source transform equals the maximal-run collapse stated by the
claim. -/
theorem replaceNewlineChars_eq_collapse :
    ∀ l : List Char, replaceNewlineChars l = collapseNewlineRuns l := by
  have H : ∀ n (l : List Char), l.length ≤ n →
      replaceNewlineChars l = collapseNewlineRuns l := by
    intro n
    induction n with
    | zero =>
      intro l hl
      have hnil : l = [] := List.eq_nil_of_length_eq_zero (Nat.le_zero.mp hl)
      subst hnil
      simp [replaceNewlineChars, collapseNewlineRuns]
    | succ n ih =>
      intro l hl
      cases l with
      | nil => simp [replaceNewlineChars, collapseNewlineRuns]
      | cons c rest =>
        have hrest : rest.length ≤ n := by
          simpa using Nat.le_of_succ_le_succ (by simpa using hl)
        by_cases hc : isNewlineChar c
        · rw [replaceNewlineChars, collapseNewlineRuns]
          simp only [hc, if_true]
          rw [ih _ (Nat.le_trans (dropWhile_length_le _ _) hrest)]
        · rw [replaceNewlineChars, collapseNewlineRuns]
          simp only [hc, if_false, Bool.false_eq_true]
          rw [ih rest hrest]
          rw [List.cons_append]
          rw [collapse_segment rest]
  intro l
  exact H l.length l (Nat.le_refl _)

/-- A list without newline characters is left unchanged. -/
theorem replaceNewlineChars_id (l : List Char)
    (h : ∀ c ∈ l, isNewlineChar c = false) : replaceNewlineChars l = l := by
  induction l with
  | nil => simp [replaceNewlineChars]
  | cons c rest ih =>
    have hc := h c (List.mem_cons_self _ _)
    rw [replaceNewlineChars]
    simp only [hc, if_false, Bool.false_eq_true]
    rw [ih (fun c' hc' => h c' (List.mem_cons_of_mem _ hc'))]

/-!
Claim theorems.
-/

/-- C2: the polling policy keys maxPollAttempts and pollIntervalMillis
supplied through providerOptions.runpod are filtered out of every video
input payload, but the image model spreads its provider options into the
submitted payload unfiltered, so both keys appear there at a concrete
request carrying them (the failing input of the code-bug report). -/
theorem c2_poll_options_stripping :
    (∀ (o : VideoCallOptions) (opts : Fields),
      hasKey (videoBuildInputPayload o opts) "maxPollAttempts" = false ∧
      hasKey (videoBuildInputPayload o opts) "pollIntervalMillis" = false) ∧
    (hasKey (imageBuildInputPayload "alibaba/wan-2.6" "A sunset" "1024*768" none
        (some [("maxPollAttempts", .num 60), ("pollIntervalMillis", .num 4000)])
        none none) "maxPollAttempts" = true ∧
     hasKey (imageBuildInputPayload "alibaba/wan-2.6" "A sunset" "1024*768" none
        (some [("maxPollAttempts", .num 60), ("pollIntervalMillis", .num 4000)])
        none none) "pollIntervalMillis" = true) := by
  refine ⟨fun o opts => ⟨?_, ?_⟩, by rfl, by rfl⟩
  · have h : getKey (videoBuildInputPayload o opts) "maxPollAttempts" = none := by
      unfold videoBuildInputPayload
      repeat' split
      all_goals
        repeat rw [getKey_setKey_ne _ _ _ _ (by decide)]
        rw [getKey_spread_of_ne _ _ (fun kv hkv => by
          rcases List.mem_filter.mp hkv with ⟨_, hp⟩
          simp at hp
          exact hp.1)]
        rfl
    simp [hasKey, h]
  · have h : getKey (videoBuildInputPayload o opts) "pollIntervalMillis" = none := by
      unfold videoBuildInputPayload
      repeat' split
      all_goals
        repeat rw [getKey_setKey_ne _ _ _ _ (by decide)]
        rw [getKey_spread_of_ne _ _ (fun kv hkv => by
          rcases List.mem_filter.mp hkv with ⟨_, hp⟩
          simp at hp
          exact hp.2)]
        rfl
    simp [hasKey, h]

/-- C3: the snapshot's Wan branch never enforces a pixel budget; the
doGenerate validation checks the global SUPPORTED_SIZES allow-list, so the
1280x1280 size (exactly the pixel-budget maximum of the family per the
repository's own tests) raises InvalidArgument while 4096x4096 (far above
the budget) is accepted; 768x768, the budget minimum, happens to be in the
allow-list. -/
theorem c3_wan_pixel_budget_divergence :
    imageDetermineSize "alibaba/wan-2.6" (some "1280x1280") none =
      .error (.invalidArgument "size" (unsupportedSizeMsg "1280x1280")) ∧
    imageDetermineSize "alibaba/wan-2.6" (some "768x768") none = .ok "768*768" ∧
    imageDetermineSize "alibaba/wan-2.6" (some "4096x4096") none = .ok "4096*4096" :=
  ⟨rfl, rfl, rfl⟩

/-- C4: when reference media are present they always win over a same-named
image reference carried in the provider options: in the Flux Kontext
branch and in the default single-reference branch the payload image field
is the first standardized file, never the extraOptions value. -/
theorem c4_reference_media_precedence :
    (∀ (opts : Fields) (prompt runpodSize url other : String) (seed : Option Int)
      (ar : Option String),
      getKey (imageBuildInputPayload "black-forest-labs/flux-1-kontext-dev" prompt
        runpodSize seed (some (setKey opts "image" (.str other))) ar (some [url]))
        "image" = some (.str url)) ∧
    (∀ (opts : Fields) (prompt runpodSize url other : String) (seed : Option Int)
      (ar : Option String),
      getKey (imageBuildInputPayload "qwen/qwen-image-edit" prompt runpodSize seed
        (some (setKey opts "image" (.str other))) ar (some [url]))
        "image" = some (.str url)) :=
  ⟨fun _ _ _ url _ _ _ => getKey_setKey_self _ "image" (.str url),
   fun _ _ _ url _ _ _ => getKey_setKey_self _ "image" (.str url)⟩

/-- C9 (amended): the video and speech models keep a base URL unchanged
when, after removal of one trailing slash, it already ends in /run or
/runsync; otherwise the video model appends the asynchronous /run suffix
while the speech model appends the synchronous /runsync suffix; the image
model appends /runsync unconditionally, with no suffix check. -/
theorem c9_submission_url :
    (∀ baseURL : String,
      (strEndsWith (withoutTrailingSlash baseURL) "/run" ||
        strEndsWith (withoutTrailingSlash baseURL) "/runsync") = true →
      videoGetRunpodRunUrl baseURL = withoutTrailingSlash baseURL ∧
      speechGetRunpodRunSyncUrl baseURL = withoutTrailingSlash baseURL) ∧
    (∀ baseURL : String,
      (strEndsWith (withoutTrailingSlash baseURL) "/run" ||
        strEndsWith (withoutTrailingSlash baseURL) "/runsync") = false →
      videoGetRunpodRunUrl baseURL = withoutTrailingSlash baseURL ++ "/run" ∧
      speechGetRunpodRunSyncUrl baseURL = withoutTrailingSlash baseURL ++ "/runsync") ∧
    (∀ baseURL : String, imageSubmissionUrl baseURL = baseURL ++ "/runsync") := by
  refine ⟨fun b h => ⟨?_, ?_⟩, fun b h => ⟨?_, ?_⟩, fun b => rfl⟩ <;>
    simp only [videoGetRunpodRunUrl, speechGetRunpodRunSyncUrl, h] <;> simp

/-- C9 counterexample: a configured image base URL already ending in
/runsync is not used unchanged as the claim requires; the image model
appends the /runsync suffix again. -/
theorem c9_counterexample :
    strEndsWith (withoutTrailingSlash "https://api.runpod.ai/v2/qwen-image/runsync")
      "/runsync" = true ∧
    imageSubmissionUrl "https://api.runpod.ai/v2/qwen-image/runsync" ≠
      "https://api.runpod.ai/v2/qwen-image/runsync" :=
  ⟨by decide, by decide⟩

/-- Witness instantiating c9_submission_url at concrete base URLs. -/
theorem c9_submission_url_witness :
    videoGetRunpodRunUrl "https://api.runpod.ai/v2/model" =
      withoutTrailingSlash "https://api.runpod.ai/v2/model" ++ "/run" ∧
    speechGetRunpodRunSyncUrl "https://api.runpod.ai/v2/model/runsync" =
      withoutTrailingSlash "https://api.runpod.ai/v2/model/runsync" :=
  ⟨(c9_submission_url.2.1 "https://api.runpod.ai/v2/model" (by decide)).1,
   (c9_submission_url.1 "https://api.runpod.ai/v2/model/runsync" (by decide)).2⟩

/-- C10: for every speech generation call the submitted prompt equals the
input text with every maximal run of carriage-return or line-feed
characters collapsed to one space, and newline-free text is submitted
unchanged. -/
theorem c10_speech_prompt_newlines :
    (∀ (text : String) (voiceUrl voice : Option String),
      getKey (speechBuildInput text voiceUrl voice) "prompt" =
        some (.str (replaceNewlinesWithSpaces text))) ∧
    (∀ text : String,
      replaceNewlinesWithSpaces text = ⟨collapseNewlineRuns text.toList⟩) ∧
    (∀ text : String, (∀ c ∈ text.toList, isNewlineChar c = false) →
      replaceNewlinesWithSpaces text = text) := by
  refine ⟨?_, ?_, ?_⟩
  · intro text voiceUrl voice
    unfold speechBuildInput
    by_cases h1 : strTruthy voiceUrl
    · simp only [h1, if_true]
      rw [getKey_setKey_ne _ _ _ _ (by decide)]
      rfl
    · simp only [h1, Bool.false_eq_true, if_false]
      by_cases h2 : strTruthy voice
      · simp only [h2, if_true]
        rw [getKey_setKey_ne _ _ _ _ (by decide)]
        rfl
      · simp only [h2, Bool.false_eq_true, if_false]
        rfl
  · intro text
    unfold replaceNewlinesWithSpaces
    exact congrArg String.mk (replaceNewlineChars_eq_collapse _)
  · intro text h
    unfold replaceNewlinesWithSpaces
    rw [replaceNewlineChars_id _ h]
    rfl

/-- Witness instantiating c10_speech_prompt_newlines on concrete text. -/
theorem c10_speech_prompt_newlines_witness :
    getKey (speechBuildInput "hello world" none none) "prompt" =
      some (.str (replaceNewlinesWithSpaces "hello world")) ∧
    replaceNewlinesWithSpaces "hello world" = "hello world" :=
  ⟨c10_speech_prompt_newlines.1 "hello world" none none,
   c10_speech_prompt_newlines.2.2 "hello world" (by decide)⟩

/-- C5: for a fixed-catalog image family (neither Pruna nor Nano Banana
Pro), a size absent from SUPPORTED_SIZES or an aspect ratio absent from
SUPPORTED_ASPECT_RATIOS fails with InvalidArgument and an empty request
trace (no transport call), and the error message carries the offending
value followed by the full accepted set. -/
theorem c5_fixed_catalog_invalid_argument :
    (∀ (modelId baseURL prompt sizeStr : String) (ar : Option String)
      (seed : Option Int) (opts : Option Fields) (imgs : Option (List String)),
      (isPrunaModel modelId || isNanoBananaProModel modelId) = false →
      sizeStr ≠ "" →
      SUPPORTED_SIZES.contains (strReplaceCharFirst sizeStr 'x' '*') = false →
      imageSubmitRequests modelId baseURL prompt (some sizeStr) ar seed opts imgs =
        ([], .error (.invalidArgument "size" (unsupportedSizeMsg sizeStr)))) ∧
    (∀ (modelId baseURL prompt arStr : String)
      (seed : Option Int) (opts : Option Fields) (imgs : Option (List String)),
      (isPrunaModel modelId || isNanoBananaProModel modelId) = false →
      arStr ≠ "" →
      lookupAspect SUPPORTED_ASPECT_RATIOS arStr = none →
      imageSubmitRequests modelId baseURL prompt none (some arStr) seed opts imgs =
        ([], .error (.invalidArgument "aspectRatio" (unsupportedAspectMsg arStr)))) ∧
    (∀ sizeStr : String, unsupportedSizeMsg sizeStr =
      "Size " ++ sizeStr ++ " is not supported by Runpod. Supported sizes: " ++
        String.intercalate ", "
          (SUPPORTED_SIZES.map (fun s => strReplaceCharFirst s '*' 'x'))) ∧
    (∀ arStr : String, unsupportedAspectMsg arStr =
      "Aspect ratio " ++ arStr ++
        " is not supported by Runpod. Supported aspect ratios: " ++
        String.intercalate ", " (SUPPORTED_ASPECT_RATIOS.map (·.1))) := by
  refine ⟨?_, ?_, fun _ => rfl, fun _ => rfl⟩
  · intro modelId baseURL prompt sizeStr ar seed opts imgs hfam hne hsz
    unfold imageSubmitRequests imageDetermineSize
    rw [hfam]
    have ht : strTruthy (some sizeStr) = true := by simp [strTruthy, hne]
    simp only [Bool.false_eq_true, if_false, ht, if_true, Option.getD_some, hsz]
  · intro modelId baseURL prompt arStr seed opts imgs hfam hne har
    unfold imageSubmitRequests imageDetermineSize
    rw [hfam]
    have ht : strTruthy (some arStr) = true := by simp [strTruthy, hne]
    have hf : strTruthy (none : Option String) = false := rfl
    simp only [Bool.false_eq_true, if_false, ht, hf, if_true, Option.getD_some, har]

/-- Witness instantiating c5_fixed_catalog_invalid_argument at a concrete
unsupported size and a concrete unsupported aspect ratio. -/
theorem c5_fixed_catalog_invalid_argument_witness :
    imageSubmitRequests "qwen/qwen-image" "https://api.runpod.ai/v2/qwen-image"
        "A cat" (some "999x999") none none none none =
      ([], .error (.invalidArgument "size" (unsupportedSizeMsg "999x999"))) ∧
    imageSubmitRequests "qwen/qwen-image" "https://api.runpod.ai/v2/qwen-image"
        "A cat" none (some "21:9") none none none =
      ([], .error (.invalidArgument "aspectRatio" (unsupportedAspectMsg "21:9"))) :=
  ⟨c5_fixed_catalog_invalid_argument.1 "qwen/qwen-image"
      "https://api.runpod.ai/v2/qwen-image" "A cat" "999x999" none none none none
      (by decide) (by decide) (by decide),
   c5_fixed_catalog_invalid_argument.2.1 "qwen/qwen-image"
      "https://api.runpod.ai/v2/qwen-image" "A cat" "21:9" none none none
      (by decide) (by decide) (by decide)⟩

/-- C6: the result extractor tries the object fields video_url, result,
url in that fixed order (first string match wins), then treats a bare
string output as the URL itself, and otherwise fails with the
malformed-output error embedding the serialized raw output; a bare string
output and an object output with the same video_url extract identically. -/
theorem c6_extract_video_url :
    (∀ (fields : Fields) (u : String),
      getStrField fields "video_url" = some u →
      extractVideoUrl (.obj fields) = .ok u) ∧
    (∀ (fields : Fields) (u : String),
      getStrField fields "video_url" = none →
      getStrField fields "result" = some u →
      extractVideoUrl (.obj fields) = .ok u) ∧
    (∀ (fields : Fields) (u : String),
      getStrField fields "video_url" = none →
      getStrField fields "result" = none →
      getStrField fields "url" = some u →
      extractVideoUrl (.obj fields) = .ok u) ∧
    (∀ s : String, extractVideoUrl (.str s) = .ok s) ∧
    (∀ fields : Fields,
      getStrField fields "video_url" = none →
      getStrField fields "result" = none →
      getStrField fields "url" = none →
      extractVideoUrl (.obj fields) = .error (videoMalformedMsg (.obj fields))) ∧
    (∀ n : Int, extractVideoUrl (.num n) = .error (videoMalformedMsg (.num n))) ∧
    (∀ xs : List JVal, extractVideoUrl (.arr xs) = .error (videoMalformedMsg (.arr xs))) ∧
    (extractVideoUrl (.str "https://cdn/x.mp4") = .ok "https://cdn/x.mp4" ∧
     extractVideoUrl (.obj [("video_url", .str "https://cdn/x.mp4")]) =
       .ok "https://cdn/x.mp4") := by
  refine ⟨?_, ?_, ?_, fun s => rfl, ?_, fun n => rfl, fun xs => rfl, rfl, rfl⟩
  · intro fields u h
    simp [extractVideoUrl, h]
  · intro fields u h1 h2
    simp [extractVideoUrl, h1, h2]
  · intro fields u h1 h2 h3
    simp [extractVideoUrl, h1, h2, h3]
  · intro fields h1 h2 h3
    simp [extractVideoUrl, h1, h2, h3]

/-- Witness instantiating c6_extract_video_url: the two example shapes of
the claim extract to the identical URL, and an unrecognizable object
output fails with the malformed-output error. -/
theorem c6_extract_video_url_witness :
    extractVideoUrl (.obj [("video_url", .str "https://cdn/x.mp4")]) =
      .ok "https://cdn/x.mp4" ∧
    extractVideoUrl (.obj [("foo", .num 1)]) =
      .error (videoMalformedMsg (.obj [("foo", .num 1)])) :=
  ⟨c6_extract_video_url.1 [("video_url", .str "https://cdn/x.mp4")]
      "https://cdn/x.mp4" rfl,
   c6_extract_video_url.2.2.2.2.1 [("foo", .num 1)] rfl rfl rfl⟩

/-- C1: a video poll observing IN_QUEUE, IN_PROGRESS, IN_PROGRESS,
COMPLETED issues exactly 4 status requests and succeeds with the completed
response; the image poll does the same when the fourth status carries a
result URL; a run whose statuses never reach COMPLETED or FAILED within
the configured maxAttempts times out after exactly maxAttempts requests;
and no run ever issues more than maxAttempts requests. -/
theorem c1_polling_requests_and_timeout :
    (∀ (responses : Nat → VideoStatusResponse) (m p : Nat), 4 ≤ m →
      (responses 0).status = "IN_QUEUE" →
      (responses 1).status = "IN_PROGRESS" →
      (responses 2).status = "IN_PROGRESS" →
      (responses 3).status = "COMPLETED" →
      videoPollForCompletion responses (fun _ => false) (some ⟨some m, some p⟩) =
        (.success (responses 3), 4)) ∧
    (∀ (responses : Nat → ImageStatusResponse) (m p : Nat) (u : String), 4 ≤ m →
      (responses 0).status = "IN_QUEUE" →
      (responses 1).status = "IN_PROGRESS" →
      (responses 2).status = "IN_PROGRESS" →
      (responses 3).status = "COMPLETED" →
      truthyResultUrl (responses 3).output = some u →
      imagePollForCompletion responses (fun _ => false) (some ⟨some m, some p⟩) =
        (.success u, 4)) ∧
    (∀ (responses : Nat → VideoStatusResponse) (m p : Nat),
      (∀ i, i < m →
        (responses i).status ≠ "COMPLETED" ∧ (responses i).status ≠ "FAILED") →
      videoPollForCompletion responses (fun _ => false) (some ⟨some m, some p⟩) =
        (.timedOut m p, m)) ∧
    (∀ (responses : Nat → ImageStatusResponse) (m p : Nat),
      (∀ i, i < m →
        (responses i).status ≠ "COMPLETED" ∧ (responses i).status ≠ "FAILED") →
      imagePollForCompletion responses (fun _ => false) (some ⟨some m, some p⟩) =
        (.timedOut m p, m)) ∧
    (∀ (responses : Nat → VideoStatusResponse) (ab : Nat → Bool) (m p : Nat),
      (videoPollForCompletion responses ab (some ⟨some m, some p⟩)).2 ≤ m) ∧
    (∀ (responses : Nat → ImageStatusResponse) (ab : Nat → Bool) (m p : Nat),
      (imagePollForCompletion responses ab (some ⟨some m, some p⟩)).2 ≤ m) := by
  refine ⟨?_, ?_, ?_, ?_, ?_, ?_⟩
  · intro responses m p hm h0 h1 h2 h3
    have := videoPollFrom_success responses (fun _ => false) m p 3 m 0
      (by omega) (fun i _ => rfl)
      (fun i hi => by
        interval_cases i <;> refine ⟨?_, ?_⟩ <;> simp only [Nat.zero_add] <;>
          first
            | (rw [h0]; decide)
            | (rw [h1]; decide)
            | (rw [h2]; decide))
      (by simp only [Nat.zero_add]; rw [h3]; decide)
    simpa using this
  · intro responses m p u hm h0 h1 h2 h3 hu
    have := imagePollFrom_success responses (fun _ => false) m p 3 m 0 u
      (by omega) (fun i _ => rfl)
      (fun i hi => by
        interval_cases i <;> refine ⟨?_, ?_⟩ <;> simp only [Nat.zero_add] <;>
          first
            | (rw [h0]; decide)
            | (rw [h1]; decide)
            | (rw [h2]; decide))
      (by simp only [Nat.zero_add]; rw [h3]; decide)
      (by simpa using hu)
    simpa using this
  · intro responses m p hn
    exact videoPollFrom_timeout responses (fun _ => false) m p m 0
      (fun i _ _ => rfl)
      (fun i hi hi' => by
        have h := hn i (by omega)
        exact ⟨by simpa [beq_eq_false_iff_ne] using h.1,
          by simpa [beq_eq_false_iff_ne] using h.2⟩)
  · intro responses m p hn
    exact imagePollFrom_timeout responses (fun _ => false) m p m 0
      (fun i _ _ => rfl)
      (fun i hi hi' => by
        have h := hn i (by omega)
        exact ⟨by simpa [beq_eq_false_iff_ne] using h.1,
          by simpa [beq_eq_false_iff_ne] using h.2⟩)
  · intro responses ab m p
    exact videoPollFrom_count_le responses ab m p m 0
  · intro responses ab m p
    exact imagePollFrom_count_le responses ab m p m 0

/-- Witness instantiating c1_polling_requests_and_timeout on a concrete
status sequence and a concrete all-queued run. -/
theorem c1_polling_requests_and_timeout_witness :
    videoPollForCompletion
      (fun n => if n == 0 then ⟨none, "IN_QUEUE", none, none⟩
        else if n == 3 then ⟨none, "COMPLETED", some (.str "https://cdn/x.mp4"), none⟩
        else ⟨none, "IN_PROGRESS", none, none⟩)
      (fun _ => false) (some ⟨some 120, some 5000⟩) =
      (.success ⟨none, "COMPLETED", some (.str "https://cdn/x.mp4"), none⟩, 4) ∧
    videoPollForCompletion (fun _ => ⟨none, "IN_QUEUE", none, none⟩)
      (fun _ => false) (some ⟨some 7, some 5000⟩) = (.timedOut 7 5000, 7) :=
  ⟨c1_polling_requests_and_timeout.1
      (fun n => if n == 0 then ⟨none, "IN_QUEUE", none, none⟩
        else if n == 3 then ⟨none, "COMPLETED", some (.str "https://cdn/x.mp4"), none⟩
        else ⟨none, "IN_PROGRESS", none, none⟩)
      120 5000 (by decide) rfl rfl rfl rfl,
   c1_polling_requests_and_timeout.2.2.1
      (fun _ => ⟨none, "IN_QUEUE", none, none⟩) 7 5000
      (fun _ _ => ⟨(by decide : ("IN_QUEUE" : String) ≠ "COMPLETED"),
        (by decide : ("IN_QUEUE" : String) ≠ "FAILED")⟩)⟩

/-- C7: when the first terminal status a poll observes is FAILED with a
non-empty error string E, the operation fails with exactly the
modality-prefixed message followed by E, and with "Unknown error" in place
of E when the remote error field is absent or empty; for the video and the
image model alike. -/
theorem c7_failed_job_message :
    (∀ (responses : Nat → VideoStatusResponse) (m p k : Nat) (E : String),
      k < m → E ≠ "" →
      (∀ i, i < k →
        (responses i).status ≠ "COMPLETED" ∧ (responses i).status ≠ "FAILED") →
      (responses k).status = "FAILED" →
      (responses k).error = some E →
      videoPollForCompletion responses (fun _ => false) (some ⟨some m, some p⟩) =
        (.jobFailed ("Video generation failed: " ++ E), k + 1)) ∧
    (∀ (responses : Nat → VideoStatusResponse) (m p k : Nat),
      k < m →
      (∀ i, i < k →
        (responses i).status ≠ "COMPLETED" ∧ (responses i).status ≠ "FAILED") →
      (responses k).status = "FAILED" →
      ((responses k).error = none ∨ (responses k).error = some "") →
      videoPollForCompletion responses (fun _ => false) (some ⟨some m, some p⟩) =
        (.jobFailed "Video generation failed: Unknown error", k + 1)) ∧
    (∀ (responses : Nat → ImageStatusResponse) (m p k : Nat) (E : String),
      k < m → E ≠ "" →
      (∀ i, i < k →
        (responses i).status ≠ "COMPLETED" ∧ (responses i).status ≠ "FAILED") →
      (responses k).status = "FAILED" →
      (responses k).error = some E →
      imagePollForCompletion responses (fun _ => false) (some ⟨some m, some p⟩) =
        (.jobFailed ("Image generation failed: " ++ E), k + 1)) ∧
    (∀ (responses : Nat → ImageStatusResponse) (m p k : Nat),
      k < m →
      (∀ i, i < k →
        (responses i).status ≠ "COMPLETED" ∧ (responses i).status ≠ "FAILED") →
      (responses k).status = "FAILED" →
      ((responses k).error = none ∨ (responses k).error = some "") →
      imagePollForCompletion responses (fun _ => false) (some ⟨some m, some p⟩) =
        (.jobFailed "Image generation failed: Unknown error", k + 1)) := by
  refine ⟨?_, ?_, ?_, ?_⟩
  · intro responses m p k E hk hE hn hf herr
    have := videoPollFrom_failed responses (fun _ => false) m p k m
      0 hk (fun i _ => rfl)
      (fun i hi => by
        have h := hn i hi
        simp only [Nat.zero_add]
        exact ⟨by simpa [beq_eq_false_iff_ne] using h.1,
          by simpa [beq_eq_false_iff_ne] using h.2⟩)
      (by simp only [Nat.zero_add]; rw [hf]; decide)
      (by simp only [Nat.zero_add]; rw [hf]; decide)
    simp only [Nat.zero_add] at this
    rw [herr] at this
    simpa [errorOrUnknown, hE] using this
  · intro responses m p k hk hn hf herr
    have := videoPollFrom_failed responses (fun _ => false) m p k m
      0 hk (fun i _ => rfl)
      (fun i hi => by
        have h := hn i hi
        simp only [Nat.zero_add]
        exact ⟨by simpa [beq_eq_false_iff_ne] using h.1,
          by simpa [beq_eq_false_iff_ne] using h.2⟩)
      (by simp only [Nat.zero_add]; rw [hf]; decide)
      (by simp only [Nat.zero_add]; rw [hf]; decide)
    simp only [Nat.zero_add] at this
    rcases herr with herr | herr <;> rw [herr] at this <;>
      simpa [errorOrUnknown] using this
  · intro responses m p k E hk hE hn hf herr
    have := imagePollFrom_failed responses (fun _ => false) m p k m
      0 hk (fun i _ => rfl)
      (fun i hi => by
        have h := hn i hi
        simp only [Nat.zero_add]
        exact ⟨by simpa [beq_eq_false_iff_ne] using h.1,
          by simpa [beq_eq_false_iff_ne] using h.2⟩)
      (by simp only [Nat.zero_add]; rw [hf]; decide)
      (by simp only [Nat.zero_add]; rw [hf]; decide)
    simp only [Nat.zero_add] at this
    rw [herr] at this
    simpa [errorOrUnknown, hE] using this
  · intro responses m p k hk hn hf herr
    have := imagePollFrom_failed responses (fun _ => false) m p k m
      0 hk (fun i _ => rfl)
      (fun i hi => by
        have h := hn i hi
        simp only [Nat.zero_add]
        exact ⟨by simpa [beq_eq_false_iff_ne] using h.1,
          by simpa [beq_eq_false_iff_ne] using h.2⟩)
      (by simp only [Nat.zero_add]; rw [hf]; decide)
      (by simp only [Nat.zero_add]; rw [hf]; decide)
    simp only [Nat.zero_add] at this
    rcases herr with herr | herr <;> rw [herr] at this <;>
      simpa [errorOrUnknown] using this

/-- Witness instantiating c7_failed_job_message: a FAILED status carrying
"GPU out of memory" yields exactly the claimed message, and an absent
error yields the Unknown-error message. -/
theorem c7_failed_job_message_witness :
    videoPollForCompletion (fun _ => ⟨none, "FAILED", none, some "GPU out of memory"⟩)
      (fun _ => false) (some ⟨some 120, some 5000⟩) =
      (.jobFailed "Video generation failed: GPU out of memory", 1) ∧
    imagePollForCompletion (fun _ => ⟨"job", "FAILED", none, none⟩)
      (fun _ => false) (some ⟨some 60, some 5000⟩) =
      (.jobFailed "Image generation failed: Unknown error", 1) :=
  ⟨c7_failed_job_message.1 (fun _ => ⟨none, "FAILED", none, some "GPU out of memory"⟩)
      120 5000 0 "GPU out of memory" (by decide) (by decide)
      (fun i hi => absurd hi (by omega)) rfl rfl,
   c7_failed_job_message.2.2.2 (fun _ => ⟨"job", "FAILED", none, none⟩)
      60 5000 0 (by decide)
      (fun i hi => absurd hi (by omega)) rfl (Or.inl rfl)⟩

/-- C8: the caller's signal is checked at the top of every poll iteration:
every issued status request happens at an iteration whose abort check came
back false, and when the signal becomes set after k unset non-terminal
iterations the poll fails with the Cancelled outcome after exactly k
requests, issuing none at or after the iteration that observed the signal;
for the video and the image model alike. -/
theorem c8_cancellation_check :
    (∀ (responses : Nat → VideoStatusResponse) (ab : Nat → Bool) (m p k : Nat),
      k < (videoPollForCompletion responses ab (some ⟨some m, some p⟩)).2 →
      ab k = false) ∧
    (∀ (responses : Nat → VideoStatusResponse) (ab : Nat → Bool) (m p k : Nat),
      k < m →
      (∀ i, i < k → ab i = false ∧
        (responses i).status ≠ "COMPLETED" ∧ (responses i).status ≠ "FAILED") →
      ab k = true →
      videoPollForCompletion responses ab (some ⟨some m, some p⟩) =
        (.cancelled "Video generation was aborted", k)) ∧
    (∀ (responses : Nat → ImageStatusResponse) (ab : Nat → Bool) (m p k : Nat),
      k < (imagePollForCompletion responses ab (some ⟨some m, some p⟩)).2 →
      ab k = false) ∧
    (∀ (responses : Nat → ImageStatusResponse) (ab : Nat → Bool) (m p k : Nat),
      k < m →
      (∀ i, i < k → ab i = false ∧
        (responses i).status ≠ "COMPLETED" ∧ (responses i).status ≠ "FAILED") →
      ab k = true →
      imagePollForCompletion responses ab (some ⟨some m, some p⟩) =
        (.cancelled "Image generation was aborted", k)) := by
  refine ⟨?_, ?_, ?_, ?_⟩
  · intro responses ab m p k h
    have := videoPollFrom_issued_unaborted responses ab m p m 0 k h
    simpa using this
  · intro responses ab m p k hk hpre hset
    have := videoPollFrom_cancelled responses ab m p k m 0 hk
      (fun i hi => by simpa using (hpre i hi).1)
      (fun i hi => by
        have h := (hpre i hi).2
        simp only [Nat.zero_add]
        exact ⟨by simpa [beq_eq_false_iff_ne] using h.1,
          by simpa [beq_eq_false_iff_ne] using h.2⟩)
      (by simpa using hset)
    simpa using this
  · intro responses ab m p k h
    have := imagePollFrom_issued_unaborted responses ab m p m 0 k h
    simpa using this
  · intro responses ab m p k hk hpre hset
    have := imagePollFrom_cancelled responses ab m p k m 0 hk
      (fun i hi => by simpa using (hpre i hi).1)
      (fun i hi => by
        have h := (hpre i hi).2
        simp only [Nat.zero_add]
        exact ⟨by simpa [beq_eq_false_iff_ne] using h.1,
          by simpa [beq_eq_false_iff_ne] using h.2⟩)
      (by simpa using hset)
    simpa using this

/-- Witness instantiating c8_cancellation_check: a signal set from the
second iteration on cancels the video poll after exactly one request. -/
theorem c8_cancellation_check_witness :
    videoPollForCompletion (fun _ => ⟨none, "IN_PROGRESS", none, none⟩)
      (fun n => decide (1 ≤ n)) (some ⟨some 120, some 5000⟩) =
      (.cancelled "Video generation was aborted", 1) :=
  c8_cancellation_check.2.1 (fun _ => ⟨none, "IN_PROGRESS", none, none⟩)
    (fun n => decide (1 ≤ n)) 120 5000 1 (by decide)
    (fun i hi => by
      have h0 : i = 0 := by omega
      subst h0
      exact ⟨by decide, (by decide : ("IN_PROGRESS" : String) ≠ "COMPLETED"),
        (by decide : ("IN_PROGRESS" : String) ≠ "FAILED")⟩)
    (by decide)
